import Mathlib

/-!
# AirAware dashboards: shallow embedding and verification

A shallow embedding of the data-loading, scaling and dashboard logic of the
four "AirAware" dashboard variants.  Machine floats are modelled by exact
rationals (`ℚ`); a missing value (NaN / NaT) is modelled by `Option`.
Fallible operations return `Option` / `Except` or an outcome type.

Dashboards 1 and 2 share a byte-identical loading pipeline
(`load_and_preprocess_data` in `data_handler.py` of each); it is embedded once
as `d12_pipeline` and the stateful wrapper `load_and_preprocess_data`.
Dashboard 3's `DataHandler._load_data` and the forecast endpoints of
Dashboards 2, 3 and 4 are embedded separately.
-/

namespace AirAware

/-- The seven pollutant columns, `pollutant_cols` in `data_handler.py`. -/
inductive Pollutant
  | AQI | PM25 | PM10 | O3 | NO2 | SO2 | CO
deriving DecidableEq, Repr

/-- `pollutant_cols = ['AQI', 'PM2.5', 'PM10', 'O3', 'NO2', 'SO2', 'CO']`. -/
def pollutant_cols : List Pollutant :=
  [.AQI, .PM25, .PM10, .O3, .NO2, .SO2, .CO]

/-- A raw CSV cell of a pollutant column: a numeric value, a missing value
(NaN), or an unparsed string that fails numeric parsing. -/
inductive CsvCell
  | num (q : ℚ)
  | nan
  | str (s : String)
deriving DecidableEq, Repr

/-- A raw CSV row: city, timestamp (already parsed; `none` models NaT after
`pd.to_datetime(..., errors='coerce')`), and one cell per pollutant column. -/
structure RawRow where
  city : String
  time : Option Int
  cells : Pollutant → CsvCell

/-- A cleaned row of Dashboards 1/2: pollutant values are numeric, `none`
models NaN. -/
structure CleanRow where
  city : String
  timestamp : Option Int
  vals : Pollutant → Option ℚ

/-- `pd.to_numeric(x, errors='coerce')` on one cell: strings that fail
parsing are coerced to NaN. -/
def toNumeric : CsvCell → Option ℚ
  | .num q => some q
  | .nan => none
  | .str _ => none

/-- Row-level equality used by `drop_duplicates` (all columns compared). -/
def rowBEq (a b : RawRow) : Bool :=
  a.city == b.city && a.time == b.time
    && pollutant_cols.all (fun p => a.cells p == b.cells p)

/-- `df.drop_duplicates()` keeping the first occurrence of each row. -/
def dropDupAux (seen : List RawRow) : List RawRow → List RawRow
  | [] => []
  | r :: rs =>
      if seen.any (rowBEq r) then dropDupAux seen rs
      else r :: dropDupAux (seen ++ [r]) rs

/-- `df.drop_duplicates()`. -/
def dropDuplicates (rows : List RawRow) : List RawRow :=
  dropDupAux [] rows

/-- Coerce every pollutant column of a row to numeric
(`pd.to_numeric(..., errors='coerce')`). -/
def coerceRow (r : RawRow) : CleanRow :=
  { city := r.city, timestamp := r.time, vals := fun p => toNumeric (r.cells p) }

/-- The non-NaN values of one pollutant column. -/
def colVals (rows : List CleanRow) (p : Pollutant) : List ℚ :=
  rows.filterMap (fun r => r.vals p)

/-- `Series.median()` (pandas): skip NaN, sort and take the middle value, or
the mean of the two middle values for even counts; NaN (`none`) when no
non-NaN value exists. -/
def median (l : List ℚ) : Option ℚ :=
  let s := l.insertionSort (· ≤ ·)
  let n := s.length
  if n = 0 then none
  else if n % 2 = 1 then some (s.getD (n / 2) 0)
  else some ((s.getD (n / 2 - 1) 0 + s.getD (n / 2) 0) / 2)

/-- `Series.fillna(med)` on one row: NaN cells get the column median (a NaN
median leaves the cell NaN, as in pandas). -/
def fillnaRow (med : Pollutant → Option ℚ) (r : CleanRow) : CleanRow :=
  { city := r.city, timestamp := r.timestamp,
    vals := fun p => match r.vals p with
      | some v => some v
      | none => med p }

/-- `df[df[col] >= 0]` keeps a row iff the cell compares `>= 0`; a NaN cell
fails the comparison (pandas semantics). -/
def keepNonneg (p : Pollutant) (r : CleanRow) : Bool :=
  match r.vals p with
  | some v => decide (0 ≤ v)
  | none => false

/-- The per-column non-negativity filter loop
(`for col in pollutant_cols: df_clean = df_clean[df_clean[col] >= 0]`). -/
def filterNonneg (rows : List CleanRow) : List CleanRow :=
  pollutant_cols.foldl (fun acc p => acc.filter (keepNonneg p)) rows

/-- Minimum of a list of rationals (0 on the empty list, which is never
reached: the scaler is only fitted on non-empty data). -/
def listMin : List ℚ → ℚ
  | [] => 0
  | x :: xs => xs.foldl min x

/-- Maximum of a list of rationals (0 on the empty list). -/
def listMax : List ℚ → ℚ
  | [] => 0
  | x :: xs => xs.foldl max x

/-- A fitted `sklearn.preprocessing.MinMaxScaler`: the per-column observed
minimum (`data_min_`) and maximum (`data_max_`) at fit time. -/
structure MinMaxScaler where
  dataMin : Pollutant → ℚ
  dataMax : Pollutant → ℚ

/-- sklearn's `_handle_zeros_in_scale`: the divisor `data_max_ - data_min_`,
replaced by 1 when the observed range is zero. -/
def rangeAdj (s : MinMaxScaler) (p : Pollutant) : ℚ :=
  if s.dataMax p = s.dataMin p then 1 else s.dataMax p - s.dataMin p

/-- `MinMaxScaler.transform` on one cell of column `p`
(feature range `(0, 1)`). -/
def transform (s : MinMaxScaler) (p : Pollutant) (x : ℚ) : ℚ :=
  (x - s.dataMin p) / rangeAdj s p

/-- `MinMaxScaler.inverse_transform` on one cell of column `p`. -/
def inverse_transform (s : MinMaxScaler) (p : Pollutant) (x : ℚ) : ℚ :=
  x * rangeAdj s p + s.dataMin p

/-- `MinMaxScaler.fit` on the cleaned data: record each column's observed
minimum and maximum. -/
def fitScaler (rows : List CleanRow) : MinMaxScaler :=
  { dataMin := fun p => listMin (colVals rows p),
    dataMax := fun p => listMax (colVals rows p) }

/-- Scale one row (`fit_transform` application step); NaN passes through. -/
def scaleRow (s : MinMaxScaler) (r : CleanRow) : CleanRow :=
  { city := r.city, timestamp := r.timestamp,
    vals := fun p => (r.vals p).map (transform s p) }

/-! ### The Dashboard 1/2 loading pipeline, stage by stage -/

/-- Stage 1: `df.drop_duplicates()` (applied to the raw frame). -/
def d12_dedup (raw : List RawRow) : List RawRow :=
  dropDuplicates raw

/-- Stage 2: numeric coercion of all pollutant columns. -/
def d12_coerced (raw : List RawRow) : List CleanRow :=
  (d12_dedup raw).map coerceRow

/-- Stage 3: `medians = df_clean[pollutant_cols].median()` computed on the
coerced frame, before filling. -/
def d12_medians (raw : List RawRow) (p : Pollutant) : Option ℚ :=
  median (colVals (d12_coerced raw) p)

/-- Stage 4: `df_clean[col].fillna(medians[col])` for every column. -/
def d12_filled (raw : List RawRow) : List CleanRow :=
  (d12_coerced raw).map (fillnaRow (d12_medians raw))

/-- Stage 5: the per-column `>= 0` filter. -/
def d12_filtered (raw : List RawRow) : List CleanRow :=
  filterNonneg (d12_filled raw)

/-- The pure loading pipeline of Dashboards 1/2 on a present CSV:
`none` models the `ValueError` sklearn raises when `fit_transform` is given
zero samples (the exception escapes `load_and_preprocess_data`, which only
catches `FileNotFoundError`). -/
def d12_pipeline (raw : List RawRow) :
    Option (List CleanRow × MinMaxScaler) :=
  let filtered := d12_filtered raw
  if filtered.isEmpty then none
  else
    let s := fitScaler filtered
    some (filtered.map (scaleRow s), s)

/-! ### Global state and the stateful loader -/

/-- A Python `MinMaxScaler` object: freshly constructed (unfitted) or
fitted. -/
inductive ScalerObj
  | unfitted
  | fitted (s : MinMaxScaler)

/-- The module globals of `data_handler.py`: `air_aware_data` and `scaler`,
each initially `None`. -/
structure Globals where
  air_aware_data : Option (List CleanRow)
  scaler : Option ScalerObj

/-- The input CSV file: missing (raises `FileNotFoundError` in
`pd.read_csv`) or present with parsed rows. -/
inductive CsvFile
  | missing
  | content (rows : List RawRow)

/-- The dummy placeholder row built when the CSV file is missing:
`pd.DataFrame({'City': ['Loading Failed'], 'timestamp': ..., 'PM2.5': [0.0],
'AQI': [0.0]})`.  The dummy frame has no other pollutant columns; absent
columns are modelled as NaN. -/
def dummy_row : CleanRow :=
  { city := "Loading Failed", timestamp := some 0,
    vals := fun p => if p = .PM25 ∨ p = .AQI then some 0 else none }

/-- The single-row dummy dataset. -/
def dummy_data : List CleanRow := [dummy_row]

/-- `load_and_preprocess_data()` of Dashboards 1/2, acting on the module
globals.  Returns the new globals and `some msg` when an exception escapes
(the sklearn `ValueError` on zero samples — in that case the global `scaler`
has already been reassigned to a fresh unfitted object, line
`scaler = MinMaxScaler()`, while `air_aware_data` keeps its old value). -/
def load_and_preprocess_data (file : CsvFile) (g : Globals) :
    Globals × Option String :=
  match file with
  | .missing =>
      ({ air_aware_data := some dummy_data, scaler := some .unfitted }, none)
  | .content raw =>
      match d12_pipeline raw with
      | some (data, s) =>
          ({ air_aware_data := some data, scaler := some (.fitted s) }, none)
      | none =>
          ({ g with scaler := some .unfitted },
            some "ValueError: 0 sample(s) in fit_transform")

/-! ### Shared numeric helpers (means, rounding, correlation) -/

/-- `Series.mean()` (the callers never pass an empty series). -/
def meanQ (l : List ℚ) : ℚ := l.sum / (l.length : ℚ)

/-- Python `round(x, 1)`.  Python rounds half to even on floats; over exact
rationals round-half-up is used — the two differ only at exact `.05`
midpoint ties, which no claim depends on. -/
def round1 (q : ℚ) : ℚ := ((round (10 * q) : ℤ) : ℚ) / 10

/-- Center a list at its mean. -/
def centered (l : List ℚ) : List ℚ := l.map (fun x => x - meanQ l)

/-- Dot product of two equal-length lists. -/
def dot (xs ys : List ℚ) : ℚ := ((xs.zip ys).map (fun p => p.1 * p.2)).sum

/-- One entry of `df.corr().abs()` (pandas), represented by the SQUARE of the
absolute Pearson correlation: the code's entry is `|cov/(sx*sy)|`, whose
value involves an irrational square root, so its square
`cov^2/(var_x*var_y)` is carried instead (the `1/(n-1)` normalisations
cancel).  `none` is pandas' NaN entry: a zero-variance column (constant over
the window, or a single row, or no rows).  Definedness, symmetry and the
`[0,1]` range transfer between `|r|` and `r^2`. -/
def corrAbsSq (xs ys : List ℚ) : Option ℚ :=
  let xc := centered xs
  let yc := centered ys
  if dot xc xc = 0 ∨ dot yc yc = 0 then none
  else some ((dot xc yc) ^ 2 / (dot xc xc * dot yc yc))

/-- `pollutant_cols` with `'AQI'` dropped (`.drop(columns=['AQI'])`). -/
def corr_pollutants : List Pollutant := [.PM25, .PM10, .O3, .NO2, .SO2, .CO]

/-- One unscaled pollutant column as prepared for the correlation section:
`scaler.inverse_transform` of the scaled frame followed by `.fillna(0)`
(a NaN input stays NaN through the affine inverse and is then zero-filled). -/
def unscaled_col (df : List CleanRow) (s : MinMaxScaler) (p : Pollutant) :
    List ℚ :=
  df.map (fun r => match r.vals p with
    | some v => inverse_transform s p v
    | none => 0)

/-- The nested dict `corr_matrix.to_dict()`. -/
abbrev CorrMap := List (Pollutant × List (Pollutant × Option ℚ))

/-- The `correlations` payload: `df[pollutant_cols]` inverse-transformed,
`AQI` dropped, zero-filled, `corr().abs().to_dict()`. -/
def corrMap (df : List CleanRow) (s : MinMaxScaler) : CorrMap :=
  corr_pollutants.map (fun p =>
    (p, corr_pollutants.map (fun q =>
      (q, corrAbsSq (unscaled_col df s p) (unscaled_col df s q)))))

/-! ### `_get_unscaled_series` and the summary / distribution sections -/

/-- `_get_unscaled_series(df, pollutant_name, scaler, pollutant_cols)`
(identical in Dashboards 1 and 2 up to a no-op `.dropna()` on the `[0]`
literal in Dashboard 1).  The code builds a zero matrix, writes the scaled
column into it, applies `scaler.inverse_transform` and extracts the column —
the inverse transform is per-column, so the zero padding is irrelevant —
then `np.nan_to_num` maps NaN/±inf to 0 (a NaN cell stays NaN through the
affine inverse; no infinity arises over exact rationals). -/
def get_unscaled_series (df : List CleanRow) (p : Pollutant)
    (s : MinMaxScaler) : List ℚ :=
  if df.isEmpty then [0]
  else df.map (fun r => match r.vals p with
    | some v => inverse_transform s p v
    | none => 0)

/-- `Series.std()` with `ddof=1`: the SAMPLE VARIANCE is carried (the code's
standard deviation is its irrational square root, then rounded; no claim
depends on its value); `none` is pandas' NaN for fewer than two points. -/
def sampleVar (l : List ℚ) : Option ℚ :=
  if l.length < 2 then none
  else some ((((centered l).map (fun x => x ^ 2)).sum) / ((l.length : ℚ) - 1))

/-- The `summary` dict of `get_dashboard_data`. -/
structure SummaryStats where
  mean : ℚ
  med : Option ℚ
  lo : ℚ
  hi : ℚ
  varS : Option ℚ
  data_points : ℕ
deriving DecidableEq, Repr

/-- Build the `summary` dict from the unscaled series (each statistic passes
through `round(., 1)`; the series is never empty — `[0]` fallback). -/
def summaryOf (l : List ℚ) : SummaryStats :=
  { mean := round1 (meanQ l),
    med := (median l).map round1,
    lo := round1 (listMin l),
    hi := round1 (listMax l),
    varS := sampleVar l,
    data_points := l.length }

/-- `dashboard_labels`. -/
def dashboard_labels : List String :=
  ["0-20", "20-40", "40-60", "60-80", "80-100", "100+"]

/-- `np.histogram(series, bins=[0,20,40,60,80,100,np.inf])`: half-open bins
`[a, b)`, last bin `[100, ∞]`; negative values fall in no bin. -/
def histCounts (l : List ℚ) : List ℕ :=
  [ l.countP (fun x => decide (0 ≤ x ∧ x < 20)),
    l.countP (fun x => decide (20 ≤ x ∧ x < 40)),
    l.countP (fun x => decide (40 ≤ x ∧ x < 60)),
    l.countP (fun x => decide (60 ≤ x ∧ x < 80)),
    l.countP (fun x => decide (80 ≤ x ∧ x < 100)),
    l.countP (fun x => decide (100 ≤ x)) ]

/-! ### The filtering window of `get_dashboard_data` -/

/-- Sort key: the parsed timestamp (rows with NaT are dropped before
sorting). -/
def tkey (r : CleanRow) : Int := r.timestamp.getD 0

/-- `sort_values('timestamp', ascending=False)` order. -/
def byTimeDesc (a b : CleanRow) : Prop := tkey b ≤ tkey a

instance : DecidableRel byTimeDesc := fun a b => Int.decLe (tkey b) (tkey a)

/-- `sort_values('timestamp')` order. -/
def byTimeAsc (a b : CleanRow) : Prop := tkey a ≤ tkey b

instance : DecidableRel byTimeAsc := fun a b => Int.decLe (tkey a) (tkey b)

/-- `df.dropna(subset=['timestamp'])` then
`df.sort_values('timestamp', ascending=False).head(24)
.sort_values('timestamp')` (ties between equal timestamps are modelled by a
stable sort; pandas' default quicksort leaves their order unspecified). -/
def d12_window (data : List CleanRow) : List CleanRow :=
  let d1 := data.filter (fun r => r.timestamp.isSome)
  ((d1.insertionSort byTimeDesc).take 24).insertionSort byTimeAsc

/-- The city filter of Dashboard 2 (Dashboard 1 has none — its filtering
block is commented out): an unknown city falls back to the first city of the
unfiltered frame (`df['City'].iloc[0]`); `city=None` skips the filter. -/
def d2_city_filter (city : Option String) (data : List CleanRow) :
    List CleanRow :=
  match city with
  | none => data
  | some c =>
      let c2 := if (data.map (fun r => r.city)).contains c then c
                else (data.headD dummy_row).city
      data.filter (fun r => r.city == c2)

/-! ### `simulate_model_data` (Dashboard 2) -/

/-- The four simulated model names. -/
inductive ModelName
  | ARIMA | Prophet | LSTM | XGBoost
deriving DecidableEq, Repr

/-- `models_list`. -/
def models_list : List ModelName := [.ARIMA, .Prophet, .LSTM, .XGBoost]

/-- `pollutants_for_eval = ['PM2.5', 'PM10', 'O3', 'NO2']`. -/
def pollutants_for_eval : List Pollutant := [.PM25, .PM10, .O3, .NO2]

/-- `trend_factor = {'LSTM': 0.05, 'Prophet': 0.04, 'ARIMA': 0.03,
'XGBoost': 0.06}[selected_model]`. -/
def trend_factor : ModelName → ℚ
  | .LSTM => 5 / 100
  | .Prophet => 4 / 100
  | .ARIMA => 3 / 100
  | .XGBoost => 6 / 100

/-- The uniform-random draws consumed by `simulate_model_data`, passed in as
parameters of the embedding; theorems hypothesise their documented ranges:
`rmse ∈ [0.01, 0.08]`, `mae ∈ [0.005, 0.05]`,
`fcNoise ∈ [-0.01, 0.01]`. -/
structure D2Draws where
  rmse : ModelName → ℕ → ℚ
  mae : ModelName → ℕ → ℚ
  fcNoise : ℕ → ℚ

/-- One entry of the simulated `performance` table. -/
structure ModelPerf where
  rmse : List ℚ
  mae : List ℚ
deriving DecidableEq, Repr

/-- The simulated RMSE/MAE table (`performance_data`). -/
def performance_data (draws : D2Draws) : List (ModelName × ModelPerf) :=
  models_list.map (fun m =>
    (m, { rmse := (List.range pollutants_for_eval.length).map (draws.rmse m),
          mae := (List.range pollutants_for_eval.length).map (draws.mae m) }))

/-- The `forecast` chart payload. -/
structure ForecastChart where
  labels : List String
  actual : List (Option ℚ)
  forecast : List (Option ℚ)
  ci_lower : List (Option ℚ)
  ci_upper : List (Option ℚ)
deriving DecidableEq, Repr

/-- One row of the `accuracy_table` (`none` best model renders `'N/A'`). -/
structure AccRow where
  pollutant : Pollutant
  best_model : Option ModelName
  rmse : ℚ
  mae : ℚ
deriving DecidableEq, Repr

/-- The `model_output` payload. -/
structure ModelOutput where
  performance : List (ModelName × ModelPerf)
  forecast : ForecastChart
  accuracy_table : List AccRow
deriving DecidableEq, Repr

/-- `timestamp.strftime('%H:%M')` abstracted to an injective rendering of
the model timestamp (`NaT` never reaches formatting: NaT rows are dropped
first). -/
def fmtTime : Option Int → String
  | some t => "t" ++ toString t
  | none => "NaT"

/-- The simulated forecast values, line
`forecast_values = [last_actual + (i * trend_factor) +
np.random.uniform(-0.01, 0.01) for i in range(1, horizon + 1)]`.  A NaN
`last_actual` (`none`) propagates. -/
def d2_forecast_values (lastA : Option ℚ) (tf : ℚ) (noise : ℕ → ℚ)
    (horizon : ℕ) : List (Option ℚ) :=
  (List.range horizon).map (fun k =>
    lastA.map (fun la => la + ((k + 1 : ℕ) : ℚ) * tf + noise (k + 1)))

/-- Python `min(rmses, key=rmses.get)` over the model dict in insertion
order: the first model attaining the minimum. -/
def argminModel (f : ModelName → ℚ) : ModelName :=
  match models_list with
  | [] => .ARIMA
  | m :: ms => ms.foldl (fun best cur => if f cur < f best then cur else best) m

/-- The simulated `accuracy_table` (best model by lowest simulated RMSE). -/
def accuracy_table_of (draws : D2Draws) : List AccRow :=
  (List.range pollutants_for_eval.length).map (fun i =>
    let best := argminModel (fun m => draws.rmse m i)
    { pollutant := pollutants_for_eval.getD i .PM25,
      best_model := some best,
      rmse := draws.rmse best i,
      mae := draws.mae best i })

/-- `simulate_model_data(df_filtered, horizon, selected_model)`.  The
`df_filtered is None` case and the `.empty` case coincide on an empty list.
Note the code pads the forecast lines with the literal
`historical_points = 20` `None`s even when fewer than 20 rows exist. -/
def simulate_model_data (df_filtered : List CleanRow) (horizon : ℕ)
    (selected_model : ModelName) (draws : D2Draws) : ModelOutput :=
  if df_filtered.isEmpty then
    { performance := performance_data draws,
      forecast :=
        { labels := (List.range 20).map (fun h => toString h ++ ":00")
            ++ (List.range horizon).map (fun h => "+" ++ toString (h + 1) ++ "H"),
          actual := List.replicate 20 (some 0) ++ List.replicate horizon none,
          forecast := List.replicate 20 none ++ List.replicate horizon (some 0),
          ci_lower := List.replicate 20 none ++ List.replicate horizon (some 0),
          ci_upper := List.replicate 20 none ++ List.replicate horizon (some 0) },
      accuracy_table := pollutants_for_eval.map (fun p =>
        { pollutant := p, best_model := none, rmse := 0, mae := 0 }) }
  else
    let hist := (df_filtered.take 20).map (fun r => r.vals .PM25)
    let lastA : Option ℚ := match hist.getLast? with
      | none => some (1 / 10)
      | some o => o
    let fvs := d2_forecast_values lastA (trend_factor selected_model)
      draws.fcNoise horizon
    let ciL := fvs.enum.map (fun p =>
      p.2.map (fun f => f - (2 / 100) * (p.1 : ℚ)))
    let ciU := fvs.enum.map (fun p =>
      p.2.map (fun f => f + (2 / 100) * (p.1 : ℚ)))
    { performance := performance_data draws,
      forecast :=
        { labels := (df_filtered.take 20).map (fun r => fmtTime r.timestamp)
            ++ (List.range horizon).map (fun h => "+" ++ toString (h + 1) ++ "H"),
          actual := hist ++ List.replicate horizon none,
          forecast := List.replicate 20 none ++ fvs,
          ci_lower := List.replicate 20 none ++ ciL,
          ci_upper := List.replicate 20 none ++ ciU },
      accuracy_table := accuracy_table_of draws }

/-! ### `get_dashboard_data` of Dashboards 1 and 2 -/

/-- A field value of the returned JSON payload. -/
inductive DashField
  | timeSeries (x : List String) (y : List (Option ℚ))
  | summary (s : SummaryStats)
  | distribution (labels : List String) (counts : List ℕ)
  | correlations (m : CorrMap)
  | dataQuality (completeness validity : ℕ)
  | modelOutput (m : ModelOutput)
deriving DecidableEq, Repr

/-- The observable outcome of a `get_dashboard_data` call: an uncaught
Python exception, the `{'error': ...}` dict, or the JSON payload as an
ordered field list. -/
inductive DashResponse
  | exn (msg : String)
  | error (msg : String)
  | payload (fields : List (String × DashField))
deriving DecidableEq, Repr

/-- Request parameters of Dashboard 2's `get_dashboard_data`. -/
structure D2Params where
  city : Option String
  pollutant : Pollutant
  model : ModelName
  horizon : ℕ

/-- The success payload of Dashboard 2 (six fields, `model_output` last). -/
def d2_payload (df : List CleanRow) (s : MinMaxScaler) (prm : D2Params)
    (draws : D2Draws) : List (String × DashField) :=
  let sel := get_unscaled_series df prm.pollutant s
  [ ("time_series", .timeSeries (df.map (fun r => fmtTime r.timestamp))
      (df.map (fun r => r.vals prm.pollutant))),
    ("summary", .summary (summaryOf sel)),
    ("distribution", .distribution dashboard_labels (histCounts sel)),
    ("correlations", .correlations (corrMap df s)),
    ("data_quality", .dataQuality 92 87),
    ("model_output", .modelOutput
      (simulate_model_data df prm.horizon prm.model draws)) ]

/-- The literal payload of Dashboard 2's CRITICAL EMPTY CHECK branch
(`simulate_model_data` is called with its default `selected_model='LSTM'`). -/
def d2_empty_payload (horizon : ℕ) (draws : D2Draws) :
    List (String × DashField) :=
  [ ("time_series", .timeSeries [] []),
    ("summary", .summary
      { mean := 0, med := some 0, lo := 0, hi := 0, varS := some 0,
        data_points := 0 }),
    ("distribution", .distribution dashboard_labels [0, 0, 0, 0, 0, 0]),
    ("correlations", .correlations (corr_pollutants.map (fun p =>
      (p, corr_pollutants.map (fun q => (q, some (0 : ℚ))))))),
    ("data_quality", .dataQuality 0 0),
    ("model_output", .modelOutput
      (simulate_model_data [] horizon .LSTM draws)) ]

/-- The lazy re-load guard shared by both `get_dashboard_data` variants:
`if air_aware_data is None or scaler is None: load_and_preprocess_data()`.
Every other path leaves the globals untouched. -/
def dashboard_step (file : CsvFile) (g : Globals) : Globals × Option String :=
  if g.air_aware_data.isNone || g.scaler.isNone
  then load_and_preprocess_data file g
  else (g, none)

/-- The body of Dashboard 2's `get_dashboard_data` after the re-load guard.
The `NotFittedError` branch models `scaler.inverse_transform` on the
unfitted scaler left by the missing-file dummy load; the final fallback arm
is unreachable (a non-raising load always sets both globals). -/
def d2_after_load (draws : D2Draws) (g1 : Globals) (prm : D2Params) :
    DashResponse :=
  match g1.air_aware_data, g1.scaler with
  | some data, some sobj =>
      if data.isEmpty then .error "Data or Scaler is not initialized properly."
      else
        if (d12_window (d2_city_filter prm.city data)).isEmpty then
          .payload (d2_empty_payload prm.horizon draws)
        else
          match sobj with
          | .unfitted => .exn "NotFittedError"
          | .fitted s =>
              .payload (d2_payload (d12_window (d2_city_filter prm.city data))
                s prm draws)
  | _, _ => .exn "AttributeError"

/-- `get_dashboard_data(city, time_range, pollutant, model, horizon)` of
Dashboard 2, acting on the module globals. -/
def get_dashboard_data_d2 (file : CsvFile) (draws : D2Draws) (g : Globals)
    (prm : D2Params) : Globals × DashResponse :=
  match dashboard_step file g with
  | (g1, some msg) => (g1, .exn msg)
  | (g1, none) => (g1, d2_after_load draws g1 prm)

/-- The success payload of Dashboard 1 (five fields, no `model_output`; the
distribution section always uses the unscaled PM2.5 series). -/
def d1_payload (df : List CleanRow) (s : MinMaxScaler) (pollutant : Pollutant) :
    List (String × DashField) :=
  let sel := get_unscaled_series df pollutant s
  let pm25 := get_unscaled_series df .PM25 s
  [ ("time_series", .timeSeries (df.map (fun r => fmtTime r.timestamp))
      (df.map (fun r => r.vals pollutant))),
    ("summary", .summary (summaryOf sel)),
    ("distribution", .distribution dashboard_labels (histCounts pm25)),
    ("correlations", .correlations (corrMap df s)),
    ("data_quality", .dataQuality 92 87) ]

/-- The body of Dashboard 1's `get_dashboard_data` after the re-load guard:
no city filter and no empty-window check (with an unfitted scaler the first
`inverse_transform` raises, whether in the summary or the correlation
section). -/
def d1_after_load (g1 : Globals) (pollutant : Pollutant) : DashResponse :=
  match g1.air_aware_data, g1.scaler with
  | some data, some sobj =>
      if data.isEmpty then .error "Data or Scaler is not initialized properly."
      else
        match sobj with
        | .unfitted => .exn "NotFittedError"
        | .fitted s => .payload (d1_payload (d12_window data) s pollutant)
  | _, _ => .exn "AttributeError"

/-- `get_dashboard_data(city, time_range, pollutant)` of Dashboard 1.  The
`city` and `time_range` parameters are accepted but unused (the filtering
block is commented out in the source). -/
def get_dashboard_data_d1 (file : CsvFile) (g : Globals)
    (pollutant : Pollutant) : Globals × DashResponse :=
  match dashboard_step file g with
  | (g1, some msg) => (g1, .exn msg)
  | (g1, none) => (g1, d1_after_load g1 pollutant)

/-! ### Dashboard 3: `DataHandler._load_data` and `/api/forecast` -/

/-- `pd.to_numeric(col, errors='coerce').fillna(0)` on one Dashboard 3
cell. -/
def d3_clean_cell (c : CsvCell) : CsvCell := .num ((toNumeric c).getD 0)

/-- The columns Dashboard 3's loader coerces and zero-fills: `AQI` plus the
loop over `['PM2.5', 'PM10', 'O3']`.  `NO2`, `SO2`, `CO` are untouched. -/
def d3_handled : List Pollutant := [.AQI, .PM25, .PM10, .O3]

/-- The row processing of `DataHandler._load_data`:
`dropna(subset=['AQI'])` (drops only genuinely-missing AQI cells, not
unparsed strings, since it runs BEFORE `to_numeric`), then coercion and
zero-fill of the handled columns. -/
def d3_process (rows : List RawRow) : List RawRow :=
  let rows1 := rows.filter (fun r => decide (r.cells .AQI ≠ CsvCell.nan))
  rows1.map (fun r =>
    { r with cells := fun p =>
        if p ∈ d3_handled then d3_clean_cell (r.cells p) else r.cells p })

/-- `DataHandler._load_data`: any `pd.read_csv` failure is caught and
re-raised as `Exception(f"Error reading CSV file: {e}")` — modelled as
`Except.error`.  Column-name normalisation and `Time` parsing are carried by
the `RawRow` representation. -/
def DataHandler_load_data : CsvFile → Except String (List RawRow)
  | .missing => .error "Error reading CSV file: FileNotFoundError"
  | .content rows => .ok (d3_process rows)

/-- One forecast value of `/api/forecast`:
`round(latest_aqi * np.random.uniform(0.85, 1.15), 1)`. -/
def api_forecast_value (latest variation : ℚ) : ℚ := round1 (latest * variation)

/-- The weekday labels of `/api/forecast`. -/
def weekdays : List String := ["Mon", "Tue", "Wed", "Thu", "Fri", "Sat", "Sun"]

/-- `latest_aqi`: the last AQI reading of the city, else the
`np.random.randint(50, 150)` draw when the city has no rows (after
`_load_data` the AQI column is always numeric). -/
def d3_latest_aqi (cityRows : List RawRow) (randAqi : ℚ) : ℚ :=
  match cityRows.getLast? with
  | some r => match r.cells .AQI with
    | .num q => q
    | _ => 0
  | none => randAqi

/-- The 7-day forecast list of `/api/forecast` (one uniform draw per day). -/
def api_forecast (latest : ℚ) (vars : ℕ → ℚ) : List (String × ℚ) :=
  (List.range weekdays.length).map (fun i =>
    (weekdays.getD i "", api_forecast_value latest (vars i)))

/-! ### Dashboard 4: the Pollutant Forecast block -/

/-- `Series.tail(n)`. -/
def takeLast (n : ℕ) (l : List ℚ) : List ℚ := l.drop (l.length - n)

/-- `city_df[selected_pollutant].dropna().tail(10)`. -/
def d4_recent (col : List (Option ℚ)) : List ℚ :=
  takeLast 10 (col.filterMap id)

/-- `base = recent_vals.mean() if not recent_vals.empty else 0`. -/
def d4_base (recent : List ℚ) : ℚ :=
  if recent.isEmpty then 0 else meanQ recent

/-- `forecast_vals = [max(0, base + random.uniform(-5, 5)) for _ in
future_times]`. -/
def d4_forecast_vals (base : ℚ) (noise : ℕ → ℚ) (horizon : ℕ) : List ℚ :=
  (List.range horizon).map (fun i => max 0 (base + noise i))

/-! ## Helper lemmas -/

theorem foldl_min_le_init (xs : List ℚ) : ∀ a : ℚ, xs.foldl min a ≤ a := by
  induction xs with
  | nil => intro a; exact le_refl a
  | cons x xs ih =>
      intro a
      exact le_trans (ih (min a x)) (min_le_left a x)

theorem foldl_min_le_mem (xs : List ℚ) :
    ∀ (a x : ℚ), x ∈ xs → xs.foldl min a ≤ x := by
  induction xs with
  | nil => intro a x hx; cases hx
  | cons y ys ih =>
      intro a x hx
      rcases List.mem_cons.mp hx with rfl | hx
      · exact le_trans (foldl_min_le_init ys (min a x)) (min_le_right a x)
      · exact ih (min a y) x hx

/-- The observed column minimum is a lower bound on the column. -/
theorem listMin_le {l : List ℚ} {x : ℚ} (hx : x ∈ l) : listMin l ≤ x := by
  cases l with
  | nil => cases hx
  | cons y ys =>
      rcases List.mem_cons.mp hx with rfl | hx
      · exact foldl_min_le_init ys x
      · exact foldl_min_le_mem ys y x hx

theorem init_le_foldl_max (xs : List ℚ) : ∀ a : ℚ, a ≤ xs.foldl max a := by
  induction xs with
  | nil => intro a; exact le_refl a
  | cons x xs ih =>
      intro a
      exact le_trans (le_max_left a x) (ih (max a x))

theorem mem_le_foldl_max (xs : List ℚ) :
    ∀ (a x : ℚ), x ∈ xs → x ≤ xs.foldl max a := by
  induction xs with
  | nil => intro a x hx; cases hx
  | cons y ys ih =>
      intro a x hx
      rcases List.mem_cons.mp hx with rfl | hx
      · exact le_trans (le_max_right a x) (init_le_foldl_max ys (max a x))
      · exact ih (max a y) x hx

/-- The observed column maximum is an upper bound on the column. -/
theorem le_listMax {l : List ℚ} {x : ℚ} (hx : x ∈ l) : x ≤ listMax l := by
  cases l with
  | nil => cases hx
  | cons y ys =>
      rcases List.mem_cons.mp hx with rfl | hx
      · exact init_le_foldl_max ys x
      · exact mem_le_foldl_max ys y x hx

/-- A scaled in-range value lies in `[0, 1]` (the degenerate constant column
scales to 0 under sklearn's zero-range adjustment). -/
theorem transform_mem_unit (s : MinMaxScaler) (p : Pollutant) (x : ℚ)
    (hlo : s.dataMin p ≤ x) (hhi : x ≤ s.dataMax p) :
    0 ≤ transform s p x ∧ transform s p x ≤ 1 := by
  unfold transform rangeAdj
  by_cases h : s.dataMax p = s.dataMin p
  · have hx : x = s.dataMin p := le_antisymm (h ▸ hhi) hlo
    simp [h, hx]
  · have hrange : 0 < s.dataMax p - s.dataMin p := by
      have : s.dataMin p < s.dataMax p := lt_of_le_of_ne (le_trans hlo hhi) (Ne.symm h)
      linarith
    rw [if_neg h]
    constructor
    · exact div_nonneg (by linarith) hrange.le
    · rw [div_le_one hrange]; linarith

/-- Surviving the sequential per-column filter loop means membership in the
original rows and satisfaction of every column's predicate. -/
theorem mem_foldl_filter {α β : Type} (f : β → α → Bool) (cols : List β)
    (rows : List α) (r : α)
    (h : r ∈ cols.foldl (fun acc p => acc.filter (f p)) rows) :
    r ∈ rows ∧ ∀ p ∈ cols, f p r = true := by
  induction cols generalizing rows with
  | nil => simpa using h
  | cons c cs ih =>
      simp only [List.foldl_cons] at h
      obtain ⟨h1, h2⟩ := ih (rows.filter (f c)) h
      have h3 := List.mem_filter.mp h1
      refine ⟨h3.1, ?_⟩
      intro p hp
      rcases List.mem_cons.mp hp with rfl | hp
      · exact h3.2
      · exact h2 p hp

/-- Every pollutant is listed in `pollutant_cols`. -/
theorem mem_pollutant_cols (p : Pollutant) : p ∈ pollutant_cols := by
  cases p <;> decide

/-! ## Claim C1 -/

/-- **C1.** For every dataset column fitted by the `MinMaxScaler` of the
Dashboard 1/2 pipeline with distinct observed minimum and maximum, and every
value `x` in the observed range `[min, max]`, inverse-scaling the
forward-scaled value returns `x` (exactly, over exact rationals — the
floating-point tolerance of the claim is not needed). -/
theorem c1_inverse_transform_roundtrip (raw : List RawRow)
    (data : List CleanRow) (s : MinMaxScaler)
    (h : d12_pipeline raw = some (data, s)) (p : Pollutant)
    (hne : s.dataMin p ≠ s.dataMax p) (x : ℚ)
    (hlo : s.dataMin p ≤ x) (hhi : x ≤ s.dataMax p) :
    inverse_transform s p (transform s p x) = x := by
  unfold inverse_transform transform rangeAdj
  rw [if_neg (fun heq => hne heq.symm)]
  have hr : s.dataMax p - s.dataMin p ≠ 0 := sub_ne_zero.mpr (fun hq => hne hq.symm)
  field_simp

/-- Concrete two-row CSV used to witness the pipeline theorems. -/
def wrowA : RawRow := { city := "CityA", time := some 1, cells := fun _ => .num 1 }

def wrowB : RawRow := { city := "CityA", time := some 2, cells := fun _ => .num 3 }

def wraw : List RawRow := [wrowA, wrowB]

/-- The loaded dataset and fitted scaler of the concrete CSV `wraw`. -/
def wload : List CleanRow × MinMaxScaler :=
  (d12_pipeline wraw).getD ([], fitScaler [])

theorem c1_witness :
    inverse_transform wload.2 .AQI (transform wload.2 .AQI 2) = 2 :=
  c1_inverse_transform_roundtrip wraw wload.1 wload.2 rfl .AQI
    (by decide) 2 (by decide) (by decide)

/-! ## Claim C2 -/

/-- Rows whose every column is the constant 5: fitting on them gives a
zero-range column, where sklearn's inverse is `s * 1 + min`, not
`s * (max - min) + min`. -/
def c2_const_rows : List CleanRow :=
  [ { city := "C", timestamp := some 1, vals := fun _ => some 5 },
    { city := "C", timestamp := some 2, vals := fun _ => some 5 } ]

/-- A one-row frame carrying the scaled value 1 in every column. -/
def c2_df : List CleanRow :=
  [ { city := "C", timestamp := some 1, vals := fun _ => some 1 } ]

/-- **C2 counterexample.** For the scaler fitted on a constant column
(observed min = max = 5) and the scaled value 1, `_get_unscaled_series`
returns `1 * 1 + 5 = 6`, not the claimed `1 * (max - min) + min = 5`:
sklearn's `_handle_zeros_in_scale` replaces the zero range by 1. -/
theorem c2_counterexample :
    get_unscaled_series c2_df .AQI (fitScaler c2_const_rows)
      ≠ [1 * ((fitScaler c2_const_rows).dataMax .AQI
            - (fitScaler c2_const_rows).dataMin .AQI)
          + (fitScaler c2_const_rows).dataMin .AQI] := by
  have h1 : get_unscaled_series c2_df .AQI (fitScaler c2_const_rows) = [6] := by
    norm_num [get_unscaled_series, c2_df, c2_const_rows, inverse_transform,
      rangeAdj, fitScaler, listMin, listMax, colVals, List.filterMap]
  have h2 : (fitScaler c2_const_rows).dataMax .AQI = 5 := by
    norm_num [fitScaler, listMax, colVals, c2_const_rows, List.filterMap]
  have h3 : (fitScaler c2_const_rows).dataMin .AQI = 5 := by
    norm_num [fitScaler, listMin, colVals, c2_const_rows, List.filterMap]
  rw [h1, h2, h3]
  norm_num

/-- **C2 (amended).** For every pollutant column whose observed minimum and
maximum at fit time are distinct, and every scaled value in a non-empty
frame without NaN, `_get_unscaled_series` computes the per-column affine
identity `unscaled = scaled * (max - min) + min`.  (For a constant column
sklearn's zero-range adjustment makes the inverse `scaled * 1 + min`
instead.) -/
theorem c2_unscale_affine (df : List CleanRow) (s : MinMaxScaler)
    (p : Pollutant) (hne : s.dataMin p ≠ s.dataMax p) (hnemp : df ≠ [])
    (hsome : ∀ r ∈ df, (r.vals p).isSome) :
    get_unscaled_series df p s
      = df.map (fun r =>
          (r.vals p).getD 0 * (s.dataMax p - s.dataMin p) + s.dataMin p) := by
  unfold get_unscaled_series
  rw [if_neg (by simpa [List.isEmpty_iff] using hnemp)]
  apply List.map_congr_left
  intro r hr
  have := hsome r hr
  cases hv : r.vals p with
  | none => rw [hv] at this; cases this
  | some v =>
      simp only [hv, Option.getD_some]
      unfold inverse_transform rangeAdj
      rw [if_neg (fun hq => hne hq.symm)]

theorem c2_witness :
    get_unscaled_series c2_df .AQI wload.2
      = c2_df.map (fun r =>
          (r.vals .AQI).getD 0 * (wload.2.dataMax .AQI - wload.2.dataMin .AQI)
            + wload.2.dataMin .AQI) :=
  c2_unscale_affine c2_df wload.2 .AQI (by decide)
    (by exact List.cons_ne_nil _ _)
    (by intro r hr; simp only [c2_df, List.mem_singleton] at hr; subst hr; rfl)

/-! ## Claim C4 -/

/-- **C4 counterexample.** Dashboard 3's loader `DataHandler._load_data`
does NOT return a dummy placeholder when the CSV is missing: it catches the
read error and re-raises `Exception(f"Error reading CSV file: {e}")`. -/
theorem c4_counterexample :
    DataHandler_load_data CsvFile.missing
      = Except.error "Error reading CSV file: FileNotFoundError" := rfl

/-- **C4 (amended).** The Dashboards 1/2 loader handles a missing CSV
without raising, returning the single-row placeholder dataset (City
`'Loading Failed'`, one timestamp, `PM2.5 = 0.0`, `AQI = 0.0`) together with
a fresh (unfitted) scaler; Dashboard 3's `DataHandler._load_data` instead
raises an exception wrapping the read error. -/
theorem c4_missing_file_behaviour (g : Globals) :
    load_and_preprocess_data CsvFile.missing g
      = ({ air_aware_data := some dummy_data, scaler := some .unfitted }, none)
    ∧ dummy_data.length = 1
    ∧ dummy_row.city = "Loading Failed"
    ∧ dummy_row.vals .PM25 = some 0
    ∧ dummy_row.vals .AQI = some 0
    ∧ dummy_row.timestamp = some 0
    ∧ DataHandler_load_data CsvFile.missing
      = Except.error "Error reading CSV file: FileNotFoundError" :=
  ⟨rfl, rfl, rfl, rfl, rfl, rfl, rfl⟩

/-! ## Claim C8 -/

/-- **C8.** On an empty input frame, `_get_unscaled_series` returns a series
containing exactly one element whose value is 0 (it neither raises nor
returns an empty series); identical in Dashboards 1 and 2, where Dashboard
1's extra `.dropna()` on the `[0]` literal is a no-op. -/
theorem c8_empty_frame_unit_series (p : Pollutant) (s : MinMaxScaler) :
    get_unscaled_series [] p s = [0] := rfl

/-! ## Claims C3 and C5: the loading pipeline invariants -/

/-- A row surviving the non-negativity filter loop has a non-NaN,
non-negative value in every pollutant column. -/
theorem filtered_vals (raw : List RawRow) (r : CleanRow)
    (hr : r ∈ d12_filtered raw) (p : Pollutant) :
    ∃ v, r.vals p = some v ∧ 0 ≤ v := by
  unfold d12_filtered filterNonneg at hr
  obtain ⟨-, hall⟩ := mem_foldl_filter keepNonneg pollutant_cols (d12_filled raw) r hr
  have h := hall p (mem_pollutant_cols p)
  unfold keepNonneg at h
  cases hv : r.vals p with
  | none => rw [hv] at h; cases h
  | some v => rw [hv] at h; exact ⟨v, rfl, of_decide_eq_true h⟩

theorem mem_colVals {rows : List CleanRow} {r : CleanRow} (hr : r ∈ rows)
    {p : Pollutant} {v : ℚ} (hv : r.vals p = some v) : v ∈ colVals rows p :=
  List.mem_filterMap.mpr ⟨r, hr, hv⟩

/-- A successful pipeline run yields exactly the filtered rows scaled by the
scaler fitted on them. -/
theorem pipeline_success (raw : List RawRow) (data : List CleanRow)
    (s : MinMaxScaler) (hp : d12_pipeline raw = some (data, s)) :
    data = (d12_filtered raw).map (scaleRow (fitScaler (d12_filtered raw)))
    ∧ s = fitScaler (d12_filtered raw) := by
  unfold d12_pipeline at hp
  by_cases hF : (d12_filtered raw).isEmpty
  · rw [if_pos hF] at hp; cases hp
  · rw [if_neg hF] at hp
    injection hp with hp
    injection hp with h1 h2
    exact ⟨h1.symm, h2.symm⟩

/-- The stored-dataset hypothesis (fresh globals, successful load) forces a
successful pipeline run. -/
theorem load_success_pipeline (raw : List RawRow) (g : Globals)
    (data : List CleanRow) (hg : g.air_aware_data = none)
    (h : (load_and_preprocess_data (CsvFile.content raw) g).1.air_aware_data
          = some data) :
    d12_pipeline raw = some (data, fitScaler (d12_filtered raw)) := by
  cases hp : d12_pipeline raw with
  | none =>
      simp only [load_and_preprocess_data, hp] at h
      rw [hg] at h
      cases h
  | some ds =>
      obtain ⟨d, s⟩ := ds
      simp only [load_and_preprocess_data, hp] at h
      injection h with h
      obtain ⟨-, h2⟩ := pipeline_success raw d s hp
      rw [h, h2]

/-- Core invariant: every cell of a successfully loaded (scaled) dataset is
a non-NaN value in `[0, 1]`. -/
theorem loaded_getD_mem_unit (raw : List RawRow) (g : Globals)
    (data : List CleanRow) (hg : g.air_aware_data = none)
    (h : (load_and_preprocess_data (CsvFile.content raw) g).1.air_aware_data
          = some data)
    (i : ℕ) (hi : i < data.length) (p : Pollutant) :
    ∃ v, (data.getD i dummy_row).vals p = some v ∧ 0 ≤ v ∧ v ≤ 1 := by
  have hp := load_success_pipeline raw g data hg h
  obtain ⟨hdata, -⟩ := pipeline_success raw data _ hp
  have hmem : data.getD i dummy_row ∈ data := by
    rw [List.getD_eq_getElem data dummy_row hi]; exact List.getElem_mem hi
  rw [hdata] at hmem
  obtain ⟨r, hrF, hr⟩ := List.mem_map.mp hmem
  obtain ⟨v, hv, hv0⟩ := filtered_vals raw r hrF p
  have hSmin : (fitScaler (d12_filtered raw)).dataMin p
      = listMin (colVals (d12_filtered raw) p) := rfl
  have hSmax : (fitScaler (d12_filtered raw)).dataMax p
      = listMax (colVals (d12_filtered raw) p) := rfl
  have hvin := mem_colVals hrF hv
  have hbounds := transform_mem_unit (fitScaler (d12_filtered raw)) p v
    (by rw [hSmin]; exact listMin_le hvin) (by rw [hSmax]; exact le_listMax hvin)
  refine ⟨transform (fitScaler (d12_filtered raw)) p v, ?_, hbounds⟩
  rw [hdata, ← hr]
  show ((r.vals p).map (transform (fitScaler (d12_filtered raw)) p)) = _
  rw [hv]; rfl

/-- **C3.** After `load_and_preprocess_data` returns successfully on a
present CSV, every value in each of the seven pollutant columns of the
stored dataset `air_aware_data` lies in `[0, 1]` (and is not NaN); identical
pipeline in Dashboards 1 and 2. -/
theorem c3_scaled_data_in_unit_interval (raw : List RawRow) (g : Globals)
    (data : List CleanRow) (hg : g.air_aware_data = none)
    (h : (load_and_preprocess_data (CsvFile.content raw) g).1.air_aware_data
          = some data)
    (i : ℕ) (hi : i < data.length) (p : Pollutant) :
    ∃ v, (data.getD i dummy_row).vals p = some v ∧ 0 ≤ v ∧ v ≤ 1 :=
  loaded_getD_mem_unit raw g data hg h i hi p

/-- The empty-globals starting state (module import). -/
def g0 : Globals := { air_aware_data := none, scaler := none }

theorem c3_witness :
    ∃ v, ((((load_and_preprocess_data (CsvFile.content wraw) g0).1.air_aware_data).getD
        []).getD 0 dummy_row).vals .AQI = some v ∧ 0 ≤ v ∧ v ≤ 1 :=
  c3_scaled_data_in_unit_interval wraw g0
    (((load_and_preprocess_data (CsvFile.content wraw) g0).1.air_aware_data).getD [])
    rfl rfl 0 (by decide) .AQI

/-- Default raw row (used only as a `getD` fallback). -/
def dummy_raw : RawRow := { city := "", time := none, cells := fun _ => .nan }

/-- A raw row whose SO2 cell fails numeric parsing (all other cells are the
number 1). -/
def c5_bad_row : RawRow :=
  { city := "C", time := some 1,
    cells := fun p => if p = .SO2 then .str "bad" else .num 1 }

/-- **C5 counterexample.** In Dashboard 3 a pollutant cell that fails
numeric parsing is NOT always coerced to NaN and zero-filled: the loader
only processes `AQI`, `PM2.5`, `PM10`, `O3`, so an unparsed `SO2` string
survives unchanged in the loaded dataset. -/
theorem c5_counterexample :
    (DataHandler_load_data (CsvFile.content [c5_bad_row])).map
        (fun l => l.map (fun r => r.cells .SO2))
      = .ok [.str "bad"] := rfl

/-- The rows of a successful Dashboard 3 load. -/
theorem d3_load_content (rows : List RawRow) (out : List RawRow)
    (h : DataHandler_load_data (CsvFile.content rows) = .ok out) :
    out = d3_process rows := by
  unfold DataHandler_load_data at h
  injection h with h
  exact h.symm

/-- **C5 (amended).** For every input CSV cell in a pollutant column that
fails numeric parsing: in Dashboards 1/2 the cell is coerced to NaN and the
filled cell equals the column median, and the successfully loaded dataset
contains no NaN in any pollutant column; in Dashboard 3 only the processed
columns (`AQI`, `PM2.5`, `PM10`, `O3`) are coerced — there every loaded cell
is numeric and a parse failure becomes 0 — while `NO2`, `SO2`, `CO` cells
are left unparsed (see the counterexample). -/
theorem c5_parse_failure_filling (raw : List RawRow) (r0 : RawRow)
    (p0 : Pollutant) (s0 : String) (hc : r0.cells p0 = .str s0)
    (g : Globals) (data : List CleanRow) (hg : g.air_aware_data = none)
    (h : (load_and_preprocess_data (CsvFile.content raw) g).1.air_aware_data
          = some data)
    (i : ℕ) (hi : i < data.length)
    (rows3 out3 : List RawRow)
    (h3 : DataHandler_load_data (CsvFile.content rows3) = .ok out3)
    (j : ℕ) (hj : j < out3.length) :
    ((coerceRow r0).vals p0 = none
      ∧ (fillnaRow (d12_medians raw) (coerceRow r0)).vals p0 = d12_medians raw p0)
    ∧ (∀ p, ((data.getD i dummy_row).vals p).isSome = true)
    ∧ (∀ p ∈ d3_handled, ∃ q, (out3.getD j dummy_raw).cells p = .num q)
    ∧ (∀ s, d3_clean_cell (.str s) = .num 0)
    ∧ d3_clean_cell .nan = .num 0 := by
  refine ⟨⟨?_, ?_⟩, ?_, ?_, fun s => rfl, rfl⟩
  · show toNumeric (r0.cells p0) = none
    rw [hc]; rfl
  · show (match (coerceRow r0).vals p0 with
      | some v => some v
      | none => d12_medians raw p0) = d12_medians raw p0
    have : (coerceRow r0).vals p0 = none := by
      show toNumeric (r0.cells p0) = none
      rw [hc]; rfl
    rw [this]
  · intro p
    obtain ⟨v, hv, -⟩ := loaded_getD_mem_unit raw g data hg h i hi p
    rw [hv]; rfl
  · intro p hp
    have hout := d3_load_content rows3 out3 h3
    have hmem : out3.getD j dummy_raw ∈ out3 := by
      rw [List.getD_eq_getElem out3 dummy_raw hj]; exact List.getElem_mem hj
    rw [hout] at hmem ⊢
    simp only [d3_process] at hmem ⊢
    obtain ⟨r, -, hr⟩ := List.mem_map.mp hmem
    refine ⟨(toNumeric (r.cells p)).getD 0, ?_⟩
    rw [← hr]
    show (if p ∈ d3_handled then d3_clean_cell (r.cells p) else r.cells p) = _
    rw [if_pos hp]; rfl

/-- The Dashboard 3 dataset loaded from the single bad-SO2-cell CSV. -/
def c5_out3 : List RawRow :=
  ((DataHandler_load_data (CsvFile.content [c5_bad_row])).toOption).getD []

theorem c5_witness :
    (((coerceRow c5_bad_row).vals .SO2 = none
      ∧ (fillnaRow (d12_medians wraw) (coerceRow c5_bad_row)).vals .SO2
          = d12_medians wraw .SO2)
    ∧ (∀ p, (((((load_and_preprocess_data (CsvFile.content wraw) g0).1.air_aware_data).getD
        []).getD 0 dummy_row).vals p).isSome = true)
    ∧ (∀ p ∈ d3_handled, ∃ q, (c5_out3.getD 0 dummy_raw).cells p = .num q)
    ∧ (∀ s, d3_clean_cell (.str s) = .num 0)
    ∧ d3_clean_cell .nan = .num 0) :=
  c5_parse_failure_filling wraw c5_bad_row .SO2 "bad" rfl g0
    (((load_and_preprocess_data (CsvFile.content wraw) g0).1.air_aware_data).getD [])
    rfl rfl 0 (by decide) [c5_bad_row] c5_out3 rfl 0 (by decide)

/-! ## Claim C7: the simulated forecast generators -/

theorem getD_range_map {α : Type} (f : ℕ → α) (h k : ℕ) (hk : k < h) (d : α) :
    ((List.range h).map f).getD k d = f k := by
  have hk2 : k < ((List.range h).map f).length := by simpa using hk
  rw [List.getD_eq_getElem _ d hk2]
  simp

/-- Rounding to one decimal moves a rational by at most `0.05`. -/
theorem round1_abs_sub (x : ℚ) : |round1 x - x| ≤ 1 / 20 := by
  unfold round1
  have h := abs_sub_round (10 * x)
  rw [abs_sub_comm] at h
  have heq : ((round (10 * x) : ℤ) : ℚ) / 10 - x
      = (((round (10 * x) : ℤ) : ℚ) - 10 * x) / 10 := by ring
  rw [heq, abs_div]
  have h10 : |(10 : ℚ)| = 10 := by norm_num
  rw [h10]
  linarith

/-- **C7 counterexample.**  With `latest_aqi = 100.04` and the admissible
uniform draw `variation = 0.85`, Dashboard 3's forecast value
`round(latest_aqi * variation, 1) = 85.0` falls BELOW the claimed band
`latest_aqi × [0.85, 1.15] = [85.034, 115.046]`: the one-decimal rounding
can leave the band. -/
theorem c7_counterexample :
    ((85 : ℚ) / 100 ≤ 17 / 20 ∧ (17 : ℚ) / 20 ≤ 115 / 100
      ∧ (0 : ℚ) ≤ 2501 / 25)
    ∧ api_forecast_value (2501 / 25) (17 / 20) < 85 / 100 * (2501 / 25) := by
  refine ⟨by norm_num, ?_⟩
  have hval : api_forecast_value (2501 / 25) (17 / 20) = 85 := by
    unfold api_forecast_value round1
    have : (2501 : ℚ) / 25 * (17 / 20) = 42517 / 500 := by norm_num
    rw [this]
    have : round ((10 : ℚ) * (42517 / 500)) = 850 := by
      rw [round_eq]; norm_num
    rw [this]; norm_num
  rw [hval]; norm_num

/-- **C7 (amended).** Every forecast value of the three generators is a
uniform-random perturbation of a simple statistic of the observed data, with
no model consulted:
Dashboard 2's step `k+1` equals exactly
`last_actual + (k+1)·trend_factor + noise` and lies within `±0.01` of
`last_actual + (k+1)·trend_factor`;
Dashboard 3's value lies within the stated band `latest_aqi × [0.85, 1.15]`
widened by the one-decimal rounding granularity `±0.05` (for non-negative
`latest_aqi`);
Dashboard 4's value equals `max(0, base + noise)` where `base` is the MEAN
of the last ten observed readings (not the last reading), so it lies within
`±5` of that mean, clamped below at 0. -/
theorem c7_forecast_bands
    (lastA : ℚ) (m : ModelName) (noise : ℕ → ℚ) (horizon : ℕ)
    (hn : ∀ i, -(1 / 100) ≤ noise i ∧ noise i ≤ 1 / 100)
    (latest var : ℚ) (hl : 0 ≤ latest)
    (hv1 : 85 / 100 ≤ var) (hv2 : var ≤ 115 / 100)
    (base : ℚ) (noise4 : ℕ → ℚ) (h4 : ∀ i, -5 ≤ noise4 i ∧ noise4 i ≤ 5)
    (k : ℕ) (hk : k < horizon) :
    ((d2_forecast_values (some lastA) (trend_factor m) noise horizon).getD k none
        = some (lastA + ((k + 1 : ℕ) : ℚ) * trend_factor m + noise (k + 1))
      ∧ |(lastA + ((k + 1 : ℕ) : ℚ) * trend_factor m + noise (k + 1))
          - (lastA + ((k + 1 : ℕ) : ℚ) * trend_factor m)| ≤ 1 / 100)
    ∧ (85 / 100 * latest - 1 / 20 ≤ api_forecast_value latest var
        ∧ api_forecast_value latest var ≤ 115 / 100 * latest + 1 / 20)
    ∧ ((d4_forecast_vals base noise4 horizon).getD k 0 = max 0 (base + noise4 k)
        ∧ base - 5 ≤ (d4_forecast_vals base noise4 horizon).getD k 0
        ∧ 0 ≤ (d4_forecast_vals base noise4 horizon).getD k 0
        ∧ (d4_forecast_vals base noise4 horizon).getD k 0 ≤ max 0 (base + 5)) := by
  refine ⟨⟨?_, ?_⟩, ⟨?_, ?_⟩, ?_, ?_, ?_, ?_⟩
  · unfold d2_forecast_values
    rw [getD_range_map _ horizon k hk]
    rfl
  · have := hn (k + 1)
    rw [abs_le]
    constructor <;> linarith [this.1, this.2]
  · have hx : 85 / 100 * latest ≤ latest * var := by
      have := mul_le_mul_of_nonneg_left hv1 hl
      linarith [this]
    have habs := abs_le.mp (round1_abs_sub (latest * var))
    unfold api_forecast_value
    linarith [habs.1]
  · have hx : latest * var ≤ 115 / 100 * latest := by
      have := mul_le_mul_of_nonneg_left hv2 hl
      linarith [this]
    have habs := abs_le.mp (round1_abs_sub (latest * var))
    unfold api_forecast_value
    linarith [habs.2]
  · unfold d4_forecast_vals
    rw [getD_range_map _ horizon k hk]
  · unfold d4_forecast_vals
    rw [getD_range_map _ horizon k hk]
    exact le_trans (by linarith [(h4 k).1]) (le_max_right 0 (base + noise4 k))
  · unfold d4_forecast_vals
    rw [getD_range_map _ horizon k hk]
    exact le_max_left 0 (base + noise4 k)
  · unfold d4_forecast_vals
    rw [getD_range_map _ horizon k hk]
    exact max_le_max (le_refl 0) (by linarith [(h4 k).2])

theorem c7_witness :
    (((d2_forecast_values (some 0) (trend_factor .LSTM) (fun _ => 0) 1).getD 0 none
        = some (0 + ((0 + 1 : ℕ) : ℚ) * trend_factor .LSTM + 0)
      ∧ |(0 + ((0 + 1 : ℕ) : ℚ) * trend_factor .LSTM + 0)
          - (0 + ((0 + 1 : ℕ) : ℚ) * trend_factor .LSTM)| ≤ 1 / 100)
    ∧ (85 / 100 * 1 - 1 / 20 ≤ api_forecast_value 1 1
        ∧ api_forecast_value 1 1 ≤ 115 / 100 * 1 + 1 / 20)
    ∧ ((d4_forecast_vals 0 (fun _ => 0) 1).getD 0 0 = max 0 (0 + (fun _ : ℕ => (0:ℚ)) 0)
        ∧ (0 : ℚ) - 5 ≤ (d4_forecast_vals 0 (fun _ => 0) 1).getD 0 0
        ∧ 0 ≤ (d4_forecast_vals 0 (fun _ => 0) 1).getD 0 0
        ∧ (d4_forecast_vals 0 (fun _ => 0) 1).getD 0 0 ≤ max 0 ((0:ℚ) + 5))) :=
  c7_forecast_bands 0 .LSTM (fun _ => 0) 1 (fun _ => by norm_num)
    1 1 (by norm_num) (by norm_num) (by norm_num)
    0 (fun _ => 0) (fun _ => by norm_num) 0 (by norm_num)

/-! ## Claim C9: `get_dashboard_data` does not mutate the globals -/

/-- **C9.** `get_dashboard_data` never mutates the global dataset: once the
globals are initialized (as the module does at import time by calling
`load_and_preprocess_data`, whose every non-raising outcome sets both
globals — third conjunct), every call, for every choice of city, pollutant,
model and horizon, leaves `air_aware_data` and `scaler` exactly as they
were: all filtering and transformation happens on `air_aware_data.copy()`. -/
theorem c9_globals_unchanged
    (file : CsvFile) (draws : D2Draws) (g : Globals) (prm : D2Params)
    (pol : Pollutant) (d : List CleanRow) (so : ScalerObj)
    (hd : g.air_aware_data = some d) (hs : g.scaler = some so) :
    (get_dashboard_data_d2 file draws g prm).1 = g
    ∧ (get_dashboard_data_d1 file g pol).1 = g
    ∧ ∀ (f2 : CsvFile) (g1 g2 : Globals),
        load_and_preprocess_data f2 g1 = (g2, none) →
        g2.air_aware_data.isSome = true ∧ g2.scaler.isSome = true := by
  have hstep : dashboard_step file g = (g, none) := by
    simp [dashboard_step, hd, hs]
  refine ⟨?_, ?_, ?_⟩
  · simp [get_dashboard_data_d2, hstep]
  · simp [get_dashboard_data_d1, hstep]
  · intro f2 g1 g2 hload
    cases f2 with
    | missing =>
        simp only [load_and_preprocess_data] at hload
        injection hload with h1 h2
        rw [← h1]
        exact ⟨rfl, rfl⟩
    | content raw =>
        cases hp : d12_pipeline raw with
        | none =>
            simp only [load_and_preprocess_data, hp] at hload
            injection hload with h1 h2
            exact Option.noConfusion h2
        | some ds =>
            obtain ⟨dd, ss⟩ := ds
            simp only [load_and_preprocess_data, hp] at hload
            injection hload with h1 h2
            rw [← h1]
            exact ⟨rfl, rfl⟩

/-- The post-import global state after a missing-file load. -/
def gInit : Globals :=
  { air_aware_data := some dummy_data, scaler := some ScalerObj.unfitted }

/-- Deterministic stand-in draws for the uniform random samples. -/
def zeroDraws : D2Draws :=
  { rmse := fun _ _ => 0, mae := fun _ _ => 0, fcNoise := fun _ => 0 }

/-- Default request parameters (`city=None`, `pollutant='PM2.5'`,
`model='LSTM'`, `horizon=4`). -/
def prm0 : D2Params :=
  { city := none, pollutant := .PM25, model := .LSTM, horizon := 4 }

theorem c9_witness :
    (get_dashboard_data_d2 (CsvFile.content wraw) zeroDraws gInit prm0).1 = gInit
    ∧ (get_dashboard_data_d1 (CsvFile.content wraw) gInit .PM25).1 = gInit
    ∧ ∀ (f2 : CsvFile) (g1 g2 : Globals),
        load_and_preprocess_data f2 g1 = (g2, none) →
        g2.air_aware_data.isSome = true ∧ g2.scaler.isSome = true :=
  c9_globals_unchanged (CsvFile.content wraw) zeroDraws gInit prm0 .PM25
    dummy_data .unfitted rfl rfl

/-! ## Claim C6: the fields of the returned JSON object -/

/-- The ordered key list of a payload response. -/
def responseKeys : DashResponse → Option (List String)
  | .payload fs => some (fs.map Prod.fst)
  | _ => none

theorem d2_payload_keys (df : List CleanRow) (s : MinMaxScaler)
    (prm : D2Params) (draws : D2Draws) :
    (d2_payload df s prm draws).map Prod.fst
      = ["time_series", "summary", "distribution", "correlations",
          "data_quality", "model_output"] := rfl

theorem d2_empty_payload_keys (horizon : ℕ) (draws : D2Draws) :
    (d2_empty_payload horizon draws).map Prod.fst
      = ["time_series", "summary", "distribution", "correlations",
          "data_quality", "model_output"] := rfl

theorem d1_payload_keys (df : List CleanRow) (s : MinMaxScaler)
    (pol : Pollutant) :
    (d1_payload df s pol).map Prod.fst
      = ["time_series", "summary", "distribution", "correlations",
          "data_quality"] := rfl

/-- **C6 counterexample.**  On a present CSV, Dashboard 1's successful
`get_dashboard_data` returns exactly FIVE fields — `model_output` is
absent — so the claimed six-field shape fails for Dashboard 1. -/
theorem c6_counterexample :
    responseKeys (get_dashboard_data_d1 (CsvFile.content wraw) g0 .PM25).2
      = some ["time_series", "summary", "distribution", "correlations",
          "data_quality"]
    ∧ "model_output" ∉
        (responseKeys (get_dashboard_data_d1 (CsvFile.content wraw) g0 .PM25).2).getD [] := by
  exact ⟨rfl, by decide⟩

/-- **C6 (amended).** Every successful (non-error) `get_dashboard_data`
payload of Dashboard 2 contains exactly the six fields `time_series`,
`summary`, `distribution`, `correlations`, `data_quality`, `model_output`
(in both the regular and the empty-window branch); Dashboard 1's payload
contains exactly the first five — it has no `model_output` field. -/
theorem c6_response_fields (file : CsvFile) (draws : D2Draws)
    (g : Globals) (prm : D2Params) (pol : Pollutant)
    (fs2 fs1 : List (String × DashField))
    (h2 : (get_dashboard_data_d2 file draws g prm).2 = .payload fs2)
    (h1 : (get_dashboard_data_d1 file g pol).2 = .payload fs1) :
    fs2.map Prod.fst
      = ["time_series", "summary", "distribution", "correlations",
          "data_quality", "model_output"]
    ∧ fs1.map Prod.fst
      = ["time_series", "summary", "distribution", "correlations",
          "data_quality"] := by
  constructor
  · unfold get_dashboard_data_d2 at h2
    split at h2
    · dsimp only at h2; cases h2
    · dsimp only at h2
      unfold d2_after_load at h2
      split at h2
      · split at h2
        · cases h2
        · split at h2
          · injection h2 with h2
            rw [← h2, d2_empty_payload_keys]
          · split at h2
            · cases h2
            · injection h2 with h2
              rw [← h2, d2_payload_keys]
      · cases h2
  · unfold get_dashboard_data_d1 at h1
    split at h1
    · dsimp only at h1; cases h1
    · dsimp only at h1
      unfold d1_after_load at h1
      split at h1
      · split at h1
        · cases h1
        · split at h1
          · cases h1
          · injection h1 with h1
            rw [← h1, d1_payload_keys]
      · cases h1

theorem c6_witness :
    (match (get_dashboard_data_d2 (CsvFile.content wraw) zeroDraws g0 prm0).2 with
      | .payload fs => fs
      | _ => []).map Prod.fst
      = ["time_series", "summary", "distribution", "correlations",
          "data_quality", "model_output"]
    ∧ (match (get_dashboard_data_d1 (CsvFile.content wraw) g0 .PM25).2 with
      | .payload fs => fs
      | _ => []).map Prod.fst
      = ["time_series", "summary", "distribution", "correlations",
          "data_quality"] :=
  c6_response_fields (CsvFile.content wraw) zeroDraws g0 prm0 .PM25 _ _ rfl rfl

/-! ## Claim C10: properties of the correlations mapping -/

/-- Extract the `correlations` field of a payload response. -/
def corrField : DashResponse → Option CorrMap
  | .payload fs => match fs.lookup "correlations" with
    | some (.correlations m) => some m
    | _ => none
  | _ => none

/-- One entry of the nested correlations dict. -/
def corrEntry (m : CorrMap) (p q : Pollutant) : Option (Option ℚ) :=
  (m.lookup p).bind (fun row => row.lookup q)

theorem lookup_map_pair {α β : Type} [DecidableEq α] (l : List α) (f : α → β)
    (p : α) :
    (l.map (fun q => (q, f q))).lookup p = if p ∈ l then some (f p) else none := by
  induction l with
  | nil => rfl
  | cons a as ih =>
      simp only [List.map_cons, List.lookup_cons, List.mem_cons]
      by_cases h : p = a
      · subst h; simp
      · have hb : (p == a) = false := beq_eq_false_iff_ne.mpr h
        simp [hb, h, ih]

theorem corrEntry_pairmap (f : Pollutant → Pollutant → Option ℚ)
    (p q : Pollutant) :
    corrEntry (corr_pollutants.map (fun a =>
        (a, corr_pollutants.map (fun b => (b, f a b))))) p q
      = if p ∈ corr_pollutants ∧ q ∈ corr_pollutants
        then some (f p q) else none := by
  unfold corrEntry
  rw [lookup_map_pair]
  by_cases hp : p ∈ corr_pollutants
  · rw [if_pos hp]
    show (corr_pollutants.map (fun b => (b, f p b))).lookup q = _
    rw [lookup_map_pair]
    by_cases hq : q ∈ corr_pollutants
    · rw [if_pos hq, if_pos ⟨hp, hq⟩]
    · rw [if_neg hq, if_neg (fun hc => hq hc.2)]
  · rw [if_neg hp, if_neg (fun hc => hp hc.1)]
    rfl

theorem dot_comm (xs ys : List ℚ) : dot xs ys = dot ys xs := by
  induction xs generalizing ys with
  | nil => cases ys <;> rfl
  | cons x xs ih =>
      cases ys with
      | nil => rfl
      | cons y ys =>
          show x * y + dot xs ys = y * x + dot ys xs
          rw [ih ys, mul_comm]

theorem dot_self_nonneg (l : List ℚ) : 0 ≤ dot l l := by
  induction l with
  | nil => exact le_refl 0
  | cons x xs ih =>
      show 0 ≤ x * x + dot xs xs
      have := mul_self_nonneg x
      linarith

theorem sum_sq_expand (l : List (ℚ × ℚ)) (t : ℚ) :
    (l.map (fun p => (t * p.1 + p.2) ^ 2)).sum
      = t ^ 2 * (l.map (fun p => p.1 ^ 2)).sum
        + 2 * t * (l.map (fun p => p.1 * p.2)).sum
        + (l.map (fun p => p.2 ^ 2)).sum := by
  induction l with
  | nil => simp
  | cons a as ih =>
      simp only [List.map_cons, List.sum_cons, ih]
      ring

/-- Discrete Cauchy–Schwarz over a list of pairs, proved by the discriminant
argument entirely inside `ℚ`. -/
theorem pairs_cauchy_schwarz (l : List (ℚ × ℚ)) :
    ((l.map (fun p => p.1 * p.2)).sum) ^ 2
      ≤ (l.map (fun p => p.1 ^ 2)).sum * (l.map (fun p => p.2 ^ 2)).sum := by
  set A := (l.map (fun p => p.1 ^ 2)).sum with hA
  set B := (l.map (fun p => p.1 * p.2)).sum with hB
  set C := (l.map (fun p => p.2 ^ 2)).sum with hC
  have key : ∀ t : ℚ, 0 ≤ A * t ^ 2 + 2 * t * B + C := by
    intro t
    have h1 : 0 ≤ (l.map (fun p => (t * p.1 + p.2) ^ 2)).sum :=
      List.sum_nonneg (by
        intro x hx
        obtain ⟨p, hp, rfl⟩ := List.mem_map.mp hx
        positivity)
    rw [sum_sq_expand l t] at h1
    nlinarith [h1]
  have hA0 : 0 ≤ A := by
    rw [hA]
    exact List.sum_nonneg (by
      intro x hx
      obtain ⟨p, hp, rfl⟩ := List.mem_map.mp hx
      positivity)
  by_cases hAz : A = 0
  · have hBz : B = 0 := by
      by_contra hB0
      have h1 := key (-(C + 1) / (2 * B))
      rw [hAz] at h1
      have h2 : 2 * (-(C + 1) / (2 * B)) * B = -(C + 1) := by
        field_simp
        ring
      have h0 : 0 ≤ C := by
        have := key 0
        nlinarith [this]
      nlinarith [h1, h2]
    rw [hAz, hBz]
    norm_num
  · have hApos : 0 < A := lt_of_le_of_ne hA0 (Ne.symm hAz)
    have h1 := key (-B / A)
    have h2 : A * (-B / A) ^ 2 + 2 * (-B / A) * B + C = C - B ^ 2 / A := by
      field_simp
      ring
    rw [h2] at h1
    have h3 : B ^ 2 / A ≤ C := by linarith
    calc B ^ 2 = B ^ 2 / A * A := by field_simp
    _ ≤ C * A := mul_le_mul_of_nonneg_right h3 hApos.le
    _ = A * C := mul_comm C A

theorem dot_self_fst (xs ys : List ℚ) (h : xs.length = ys.length) :
    dot xs xs = ((xs.zip ys).map (fun p => p.1 ^ 2)).sum := by
  induction xs generalizing ys with
  | nil => rfl
  | cons x xs ih =>
      cases ys with
      | nil => simp at h
      | cons y ys =>
          show x * x + dot xs xs
            = x ^ 2 + ((xs.zip ys).map (fun p => p.1 ^ 2)).sum
          rw [← ih ys (by simpa using h)]
          ring

theorem dot_self_snd (xs ys : List ℚ) (h : xs.length = ys.length) :
    dot ys ys = ((xs.zip ys).map (fun p => p.2 ^ 2)).sum := by
  induction xs generalizing ys with
  | nil =>
      cases ys with
      | nil => rfl
      | cons y ys => simp at h
  | cons x xs ih =>
      cases ys with
      | nil => simp at h
      | cons y ys =>
          show y * y + dot ys ys
            = y ^ 2 + ((xs.zip ys).map (fun p => p.2 ^ 2)).sum
          rw [← ih ys (by simpa using h)]
          ring

theorem dot_sq_le (xs ys : List ℚ) (h : xs.length = ys.length) :
    (dot xs ys) ^ 2 ≤ dot xs xs * dot ys ys := by
  rw [dot_self_fst xs ys h, dot_self_snd xs ys h]
  exact pairs_cauchy_schwarz (xs.zip ys)

theorem centered_length (l : List ℚ) : (centered l).length = l.length := by
  simp [centered]

/-- The correlation entry is symmetric in its two columns. -/
theorem corrAbsSq_comm (xs ys : List ℚ) : corrAbsSq xs ys = corrAbsSq ys xs := by
  unfold corrAbsSq
  by_cases h1 : dot (centered xs) (centered xs) = 0 <;>
    by_cases h2 : dot (centered ys) (centered ys) = 0 <;>
      simp [h1, h2, dot_comm (centered xs) (centered ys),
        mul_comm (dot (centered xs) (centered xs))]

/-- A defined correlation entry (squared `|r|`) lies in `[0, 1]`. -/
theorem corrAbsSq_mem_unit (xs ys : List ℚ) (h : xs.length = ys.length)
    (v : ℚ) (hv : corrAbsSq xs ys = some v) : 0 ≤ v ∧ v ≤ 1 := by
  unfold corrAbsSq at hv
  by_cases hd : dot (centered xs) (centered xs) = 0
      ∨ dot (centered ys) (centered ys) = 0
  · rw [if_pos hd] at hv; cases hv
  · rw [if_neg hd] at hv
    injection hv with hv
    push_neg at hd
    have hx : 0 < dot (centered xs) (centered xs) :=
      lt_of_le_of_ne (dot_self_nonneg _) (Ne.symm hd.1)
    have hy : 0 < dot (centered ys) (centered ys) :=
      lt_of_le_of_ne (dot_self_nonneg _) (Ne.symm hd.2)
    have hlen : (centered xs).length = (centered ys).length := by
      rw [centered_length, centered_length, h]
    have hcs := dot_sq_le (centered xs) (centered ys) hlen
    constructor
    · rw [← hv]; positivity
    · rw [← hv, div_le_one (by positivity)]
      exact hcs

theorem unscaled_col_length (df : List CleanRow) (s : MinMaxScaler)
    (p : Pollutant) : (unscaled_col df s p).length = df.length := by
  simp [unscaled_col]

/-- The four claimed properties, for any pairmap-shaped correlations dict
whose entry function is symmetric with defined values in `[0, 1]`. -/
theorem pairmap_corr_props (f : Pollutant → Pollutant → Option ℚ)
    (hsym : ∀ p q, f p q = f q p)
    (hbound : ∀ p q v, f p q = some v → 0 ≤ v ∧ v ≤ 1) :
    (∀ p q, corrEntry (corr_pollutants.map (fun a =>
        (a, corr_pollutants.map (fun b => (b, f a b))))) p q
      = corrEntry (corr_pollutants.map (fun a =>
        (a, corr_pollutants.map (fun b => (b, f a b))))) q p)
    ∧ (∀ p q v, corrEntry (corr_pollutants.map (fun a =>
        (a, corr_pollutants.map (fun b => (b, f a b))))) p q = some (some v) →
        0 ≤ v ∧ v ≤ 1)
    ∧ (corr_pollutants.map (fun a =>
        (a, corr_pollutants.map (fun b => (b, f a b))))).lookup .AQI = none
    ∧ (∀ p row, (corr_pollutants.map (fun a =>
        (a, corr_pollutants.map (fun b => (b, f a b))))).lookup p = some row →
        row.lookup .AQI = none) := by
  refine ⟨?_, ?_, ?_, ?_⟩
  · intro p q
    rw [corrEntry_pairmap, corrEntry_pairmap]
    by_cases hp : p ∈ corr_pollutants <;> by_cases hq : q ∈ corr_pollutants <;>
      simp [hp, hq, hsym p q]
  · intro p q v h
    rw [corrEntry_pairmap] at h
    by_cases hc : p ∈ corr_pollutants ∧ q ∈ corr_pollutants
    · rw [if_pos hc] at h
      injection h with h
      exact hbound p q v h
    · rw [if_neg hc] at h
      cases h
  · rw [lookup_map_pair, if_neg (by decide)]
  · intro p row h
    rw [lookup_map_pair] at h
    by_cases hp : p ∈ corr_pollutants
    · rw [if_pos hp] at h
      injection h with h
      rw [← h, lookup_map_pair, if_neg (by decide)]
    · rw [if_neg hp] at h
      cases h

/-- `corrEntry` on the correlations dict built by `get_dashboard_data`. -/
theorem corrEntry_corrMap (df : List CleanRow) (s : MinMaxScaler)
    (p q : Pollutant) :
    corrEntry (corrMap df s) p q
      = if p ∈ corr_pollutants ∧ q ∈ corr_pollutants
        then some (corrAbsSq (unscaled_col df s p) (unscaled_col df s q))
        else none :=
  corrEntry_pairmap
    (fun a b => corrAbsSq (unscaled_col df s a) (unscaled_col df s b)) p q

theorem corrField_d2_payload (df : List CleanRow) (s : MinMaxScaler)
    (prm : D2Params) (draws : D2Draws) :
    corrField (.payload (d2_payload df s prm draws)) = some (corrMap df s) := rfl

theorem corrField_d2_empty (horizon : ℕ) (draws : D2Draws) :
    corrField (.payload (d2_empty_payload horizon draws))
      = some (corr_pollutants.map (fun p =>
          (p, corr_pollutants.map (fun q => (q, some (0 : ℚ)))))) := rfl

theorem corrField_d1_payload (df : List CleanRow) (s : MinMaxScaler)
    (pol : Pollutant) :
    corrField (.payload (d1_payload df s pol)) = some (corrMap df s) := rfl

/-- Every correlations dict of a Dashboard 2 payload is the computed
`corrMap` or the all-zero literal of the empty-window branch. -/
theorem d2_corrField_shape (file : CsvFile) (draws : D2Draws) (g : Globals)
    (prm : D2Params) (m : CorrMap)
    (hm : corrField (get_dashboard_data_d2 file draws g prm).2 = some m) :
    (∃ df s, m = corrMap df s)
    ∨ m = corr_pollutants.map (fun p =>
        (p, corr_pollutants.map (fun q => (q, some (0 : ℚ))))) := by
  unfold get_dashboard_data_d2 at hm
  split at hm
  · dsimp only [corrField] at hm; cases hm
  · dsimp only at hm
    unfold d2_after_load at hm
    split at hm
    · split at hm
      · cases hm
      · split at hm
        · rw [corrField_d2_empty] at hm
          injection hm with hm
          exact Or.inr hm.symm
        · split at hm
          · cases hm
          · rw [corrField_d2_payload] at hm
            injection hm with hm
            exact Or.inl ⟨_, _, hm.symm⟩
    · cases hm

/-- Every correlations dict of a Dashboard 1 payload is a computed
`corrMap`. -/
theorem d1_corrField_shape (file : CsvFile) (g : Globals) (pol : Pollutant)
    (m : CorrMap)
    (hm : corrField (get_dashboard_data_d1 file g pol).2 = some m) :
    ∃ df s, m = corrMap df s := by
  unfold get_dashboard_data_d1 at hm
  split at hm
  · dsimp only [corrField] at hm; cases hm
  · dsimp only at hm
    unfold d1_after_load at hm
    split at hm
    · split at hm
      · cases hm
      · split at hm
        · cases hm
        · rw [corrField_d1_payload] at hm
          injection hm with hm
          exact ⟨_, _, hm.symm⟩
    · cases hm

/-- A two-row CSV whose NO2 column is constant: its correlation entries are
NaN. -/
def craw10 : List RawRow :=
  [ { city := "C", time := some 1,
      cells := fun p => if p = .NO2 then .num 5 else .num 1 },
    { city := "C", time := some 2,
      cells := fun p => if p = .NO2 then .num 5 else .num 2 } ]

/-- The filtered window of the `craw10` dashboard call. -/
def DF10 : List CleanRow :=
  d12_window (d2_city_filter prm0.city
    (((d12_pipeline craw10).getD ([], fitScaler [])).1))

/-- The fitted scaler of the `craw10` dashboard call. -/
def S10 : MinMaxScaler := ((d12_pipeline craw10).getD ([], fitScaler [])).2

/-- The correlations dict returned for the `craw10` CSV. -/
def cm10 : CorrMap :=
  (corrField (get_dashboard_data_d2 (CsvFile.content craw10) zeroDraws g0
    prm0).2).getD []

/-- **C10 counterexample.** On a present CSV whose NO2 column is constant
over the window, the correlations mapping returned by `get_dashboard_data`
contains an entry that is NaN (here represented by `none`): a zero-variance
column makes `cov/(sx*sy)` a 0/0 — so not every entry is a non-negative
number. -/
theorem c10_counterexample :
    corrField (get_dashboard_data_d2 (CsvFile.content craw10) zeroDraws g0
        prm0).2 = some cm10
    ∧ corrEntry cm10 .NO2 .PM25 = some none := by
  refine ⟨rfl, ?_⟩
  have hkey : ∀ a : ℚ, dot (centered [a, a]) (centered [a, a]) = 0 := by
    intro a
    have hm : meanQ [a, a] = a := by
      show (a + (a + 0)) / ((2 : ℕ) : ℚ) = a
      push_cast
      ring
    show (a - meanQ [a, a]) * (a - meanQ [a, a])
        + ((a - meanQ [a, a]) * (a - meanQ [a, a]) + 0) = 0
    rw [hm]
    ring
  have hcm : cm10 = corrMap DF10 S10 := rfl
  rw [hcm, corrEntry_corrMap,
    if_pos (by decide :
      Pollutant.NO2 ∈ corr_pollutants ∧ Pollutant.PM25 ∈ corr_pollutants)]
  have hX : unscaled_col DF10 S10 .NO2
      = [inverse_transform S10 .NO2 (transform S10 .NO2 5),
          inverse_transform S10 .NO2 (transform S10 .NO2 5)] := rfl
  rw [hX]
  congr 1
  unfold corrAbsSq
  rw [if_pos (Or.inl (hkey _))]

/-- **C10 (amended).** In every correlations mapping returned by
`get_dashboard_data` (Dashboards 1 and 2): every DEFINED entry is
non-negative and lies in `[0, 1]` (the entry carried here is the square of
the absolute Pearson correlation; an entry is undefined/NaN exactly when a
column has zero variance over the window — see the counterexample); the
mapping is symmetric; and the `AQI` column is excluded from both nesting
levels. -/
theorem c10_correlations_props (file : CsvFile) (draws : D2Draws)
    (g : Globals) (prm : D2Params) (pol : Pollutant) (m2 m1 : CorrMap)
    (hm2 : corrField (get_dashboard_data_d2 file draws g prm).2 = some m2)
    (hm1 : corrField (get_dashboard_data_d1 file g pol).2 = some m1) :
    ((∀ p q, corrEntry m2 p q = corrEntry m2 q p)
      ∧ (∀ p q v, corrEntry m2 p q = some (some v) → 0 ≤ v ∧ v ≤ 1)
      ∧ m2.lookup .AQI = none
      ∧ (∀ p row, m2.lookup p = some row → row.lookup .AQI = none))
    ∧ ((∀ p q, corrEntry m1 p q = corrEntry m1 q p)
      ∧ (∀ p q v, corrEntry m1 p q = some (some v) → 0 ≤ v ∧ v ≤ 1)
      ∧ m1.lookup .AQI = none
      ∧ (∀ p row, m1.lookup p = some row → row.lookup .AQI = none)) := by
  have main : ∀ (df : List CleanRow) (s : MinMaxScaler),
      (∀ p q, corrEntry (corrMap df s) p q = corrEntry (corrMap df s) q p)
      ∧ (∀ p q v, corrEntry (corrMap df s) p q = some (some v) →
          0 ≤ v ∧ v ≤ 1)
      ∧ (corrMap df s).lookup .AQI = none
      ∧ (∀ p row, (corrMap df s).lookup p = some row →
          row.lookup .AQI = none) := by
    intro df s
    exact pairmap_corr_props
      (fun a b => corrAbsSq (unscaled_col df s a) (unscaled_col df s b))
      (fun p q => corrAbsSq_comm _ _)
      (fun p q v hv => corrAbsSq_mem_unit _ _
        (by rw [unscaled_col_length, unscaled_col_length]) v hv)
  constructor
  · rcases d2_corrField_shape file draws g prm m2 hm2 with ⟨df, s, rfl⟩ | rfl
    · exact main df s
    · exact pairmap_corr_props (fun _ _ => some 0) (fun _ _ => rfl)
        (fun p q v hv => by
          injection hv with hv
          rw [← hv]
          norm_num)
  · obtain ⟨df, s, rfl⟩ := d1_corrField_shape file g pol m1 hm1
    exact main df s

/-- The correlations dict returned for the witness CSV by Dashboard 2. -/
def cw_m2 : CorrMap :=
  (corrField (get_dashboard_data_d2 (CsvFile.content wraw) zeroDraws g0
    prm0).2).getD []

/-- The correlations dict returned for the witness CSV by Dashboard 1. -/
def cw_m1 : CorrMap :=
  (corrField (get_dashboard_data_d1 (CsvFile.content wraw) g0 .PM25).2).getD []

theorem c10_witness :
    ((∀ p q, corrEntry cw_m2 p q = corrEntry cw_m2 q p)
      ∧ (∀ p q v, corrEntry cw_m2 p q = some (some v) → 0 ≤ v ∧ v ≤ 1)
      ∧ cw_m2.lookup .AQI = none
      ∧ (∀ p row, cw_m2.lookup p = some row → row.lookup .AQI = none))
    ∧ ((∀ p q, corrEntry cw_m1 p q = corrEntry cw_m1 q p)
      ∧ (∀ p q v, corrEntry cw_m1 p q = some (some v) → 0 ≤ v ∧ v ≤ 1)
      ∧ cw_m1.lookup .AQI = none
      ∧ (∀ p row, cw_m1.lookup p = some row → row.lookup .AQI = none)) :=
  c10_correlations_props (CsvFile.content wraw) zeroDraws g0 prm0 .PM25
    cw_m2 cw_m1 rfl rfl

end AirAware
